import Mathlib

/-!
Shallow embedding of the error-handler registry and dispatch engine of the
`expressjs-base` repository:

* `src/core/helpers/error-handler-registry.helper.js`
  (`BaseException`, `registerErrorHandler`, `findErrorHandler`,
   `createFallbackResponse`, `isRetryableError`, `createSafeHandler`,
   `handleWithRegistry`, `getRegisteredHandlers`, `clearRegistry`)
* `src/core/helpers/response.helper.js` (`HttpResponse` and `send`)
* `src/core/middlewares/error-handler.middleware.js` (`globalErrorHandler`)
* `src/core/config/http-options.config.js` (`HTTP_OPTIONS`)

Modelling conventions:

* A JavaScript field that may be `undefined`/`null`/absent is an `Option`;
  `none` collapses `undefined` and `null` (the source only distinguishes
  them through `??` and `?.`, which treat both alike, and through
  `!== undefined` guards on fields that are never set to `null`).
* JavaScript objects used as open key/value bags (`meta`, `metadata`) are
  association lists `List (String × JsVal)` in insertion order; object
  spread is sequential `objSet`, mirroring `Map.set` / property-set
  semantics (existing key updated in place, new key appended).
* Exception classes are identified by tags (`ClassId`); a value's
  prototype chain is the `ancestors` list, so `x instanceof C` is
  `C ∈ x.ancestors` and `x.constructor === C` is `x.ctor = C`.
* Synchronous throws and promise rejections are explicit constructors
  (`HandlerRun.throws`, `HandlerRun.retPromise (.error _)`);
  engine-raised errors are `Thrown.builtin` carrying the error class.
* Wall-clock timestamps (`new Date().toISOString()`) and freshly generated
  correlation ids are threaded as opaque string parameters.
* `console.error` / `console.warn` side effects are not modelled: no claim
  mentions log output, only the returned/sent values.
-/

set_option autoImplicit false

namespace ExpressBase

/-- Model of primitive JavaScript values that occur in the metadata bags and
response bodies of this code base. -/
inductive JsVal where
  | str (s : String)
  | int (n : Int)
  | bool (b : Bool)
  | null
  | undefined
  deriving DecidableEq, Repr

/-- JavaScript truthiness of a `JsVal` (only the cases that occur here). -/
def JsVal.truthy : JsVal → Bool
  | .str s => s ≠ ""
  | .int n => n ≠ 0
  | .bool b => b
  | .null => false
  | .undefined => false

/-- An object bag: keys in insertion order, at most one entry per key. -/
abbrev JsObj := List (String × JsVal)

/-- Property write on an object bag: update in place if the key exists,
append otherwise (JavaScript property-set / `Map.set` ordering). -/
def objSet (m : JsObj) (k : String) (v : JsVal) : JsObj :=
  match m with
  | [] => [(k, v)]
  | (k', v') :: rest => if k' = k then (k, v) :: rest else (k', v') :: objSet rest k v

/-- Object spread `{ ...base, ...extra }`: write the entries of `extra`
left-to-right onto `base`. -/
def objSpread (base extra : JsObj) : JsObj :=
  extra.foldl (fun acc kv => objSet acc kv.1 kv.2) base

/-- Property read on an object bag. -/
def objGet (m : JsObj) (k : String) : Option JsVal :=
  match m with
  | [] => none
  | (k', v) :: rest => if k' = k then some v else objGet rest k

/-- JavaScript `x || d` for an optional string (`none`, `null`, and the empty
string are falsy). -/
def jsOrStr (x : Option String) (d : String) : String :=
  match x with
  | some s => if s = "" then d else s
  | none => d

/-- JavaScript `x || d` for an optional integer (`none`, `null`, and `0` are
falsy). -/
def jsOrInt (x : Option Int) (d : Int) : Int :=
  match x with
  | some n => if n = 0 then d else n
  | none => d

/-! ## `core/constants/http-status.constant.js` -/

/-- The curated `HTTP_STATUS` codes are inlined as numerals.  `getStatusText`
wraps Node's built-in `STATUS_CODES` table; only the rows for the curated
codes are reproduced (the constant file itself defers to the Node table,
which is external to the repository), with the `''` fallback of `safeGet`. -/
def getStatusText (code : Int) : String :=
  if code = 200 then "OK"
  else if code = 201 then "Created"
  else if code = 202 then "Accepted"
  else if code = 204 then "No Content"
  else if code = 400 then "Bad Request"
  else if code = 401 then "Unauthorized"
  else if code = 403 then "Forbidden"
  else if code = 404 then "Not Found"
  else if code = 409 then "Conflict"
  else if code = 500 then "Internal Server Error"
  else if code = 501 then "Not Implemented"
  else if code = 502 then "Bad Gateway"
  else if code = 503 then "Service Unavailable"
  else ""

/-! ## `core/config/http-options.config.js` -/

/-- The HTTP behaviour flags consumed by `HttpResponse.send`
(`STRICT_CONTROLLER_RETURN` is not used by the components embedded here). -/
structure HttpOptions where
  USE_STATUS_CODE_IN_RESPONSE : Bool
  SET_DEFAULT_HTTP_STATUS_CODE : Bool
  DEFAULT_HTTP_STATUS_CODE : Int
  deriving DecidableEq, Repr

/-- `HTTP_OPTIONS` as initialised with no `HTTP_*` environment overrides:
`USE_STATUS_CODE_IN_RESPONSE` is `(env === 'true') || true`, hence `true`;
`SET_DEFAULT_HTTP_STATUS_CODE` is `env === 'true'`, hence `false`;
`DEFAULT_HTTP_STATUS_CODE` is `Number(env) || 200`, hence `200`. -/
def defaultHttpOptions : HttpOptions :=
  { USE_STATUS_CODE_IN_RESPONSE := true
    SET_DEFAULT_HTTP_STATUS_CODE := false
    DEFAULT_HTTP_STATUS_CODE := 200 }

/-! ## `core/helpers/response.helper.js` -/

/-- An `HttpResponse` instance (the Respondable of the spec). -/
structure HttpResponse where
  data : JsVal
  message : String
  statusCode : Int
  success : Bool
  meta : JsObj
  deriving DecidableEq, Repr

/-- The `HttpResponse` constructor.  `message ?? getStatusText(statusCode)`;
`success = statusCode >= 200 && statusCode < 300`; the meta bag is
`{ timestamp: new Date().toISOString(), ...meta }` (`now` threads the
timestamp). -/
def HttpResponse.make (data : JsVal) (message : Option String) (statusCode : Int)
    (meta : JsObj) (now : String) : HttpResponse :=
  { data := data
    message := match message with
      | some m => m
      | none => getStatusText statusCode
    statusCode := statusCode
    success := decide (200 ≤ statusCode ∧ statusCode < 300)
    meta := objSpread [("timestamp", .str now)] meta }

/-- `HttpResponse.error(message = 'Error', statusCode = 500, errorDetails =
null, meta = {})`; `none` arguments take the JavaScript parameter default. -/
def HttpResponse.error (message : Option String) (statusCode : Option Int)
    (errorDetails : JsVal) (meta : JsObj) (now : String) : HttpResponse :=
  HttpResponse.make errorDetails (some (message.getD "Error")) (statusCode.getD 500) meta now

/-- The JSON body assembled by `HttpResponse.send` (optional fields are the
keys the source adds conditionally). -/
structure ResBody where
  success : Bool
  message : String
  statusCode : Option Int := none
  data : Option JsVal := none
  error : Option JsVal := none
  meta : Option JsObj := none
  deriving DecidableEq, Repr

/-- `HttpResponse.send(res)`: resolve the transport status from
`HTTP_OPTIONS`, then build the body (`statusCode` mirrored when
`USE_STATUS_CODE_IN_RESPONSE`; `data`/`error` only when the payload is
neither `undefined` nor `null`; `meta` only when non-empty).  Returns the
`res.status(...)` argument and the `res.send(...)` body. -/
def HttpResponse.sendParts (r : HttpResponse) (opts : HttpOptions) : Int × ResBody :=
  let finalStatusCode :=
    if opts.SET_DEFAULT_HTTP_STATUS_CODE then opts.DEFAULT_HTTP_STATUS_CODE
    else r.statusCode
  let body : ResBody :=
    { success := r.success
      message := r.message
      statusCode := if opts.USE_STATUS_CODE_IN_RESPONSE then some r.statusCode else none
      data := if r.success ∧ r.data ≠ .undefined ∧ r.data ≠ .null then some r.data else none
      error := if ¬r.success ∧ r.data ≠ .undefined ∧ r.data ≠ .null then some r.data else none
      meta := if r.meta ≠ [] then some r.meta else none }
  (finalStatusCode, body)

/-! ## Error values and exception classes -/

/-- Exception classes / constructor functions are identified by tags. -/
abbrev ClassId := Nat

/-- The tag of the `BaseException` class exported by
`error-handler-registry.helper.js`. -/
def baseExceptionClass : ClassId := 0

/-- A JavaScript error value as this code base touches it: a constructor tag,
the prototype chain (`ancestors`, which contains `ctor` for ordinary
instances), and the fields read by the registry, the fallback builder and the
middleware.  Optional fields are `none` when absent/`undefined`/`null`. -/
structure JsError where
  ctor : ClassId
  ancestors : List ClassId
  message : Option String := none
  name : Option String := none
  statusCode : Option Int := none
  errorCode : Option String := none
  isOperational : Option Bool := none
  correlationId : Option String := none
  data : JsVal := .null
  metadata : Option JsObj := none
  meta : Option JsObj := none
  stack : Option String := none
  deriving DecidableEq, Repr

/-- `err instanceof C`: the class tag occurs in the prototype chain. -/
def instanceOf (e : JsError) (c : ClassId) : Bool := e.ancestors.contains c

/-- `isBaseException` / `err instanceof BaseException`. -/
def isBaseException (e : JsError) : Bool := instanceOf e baseExceptionClass

/-! ## Handlers and thrown values -/

/-- Outcome of invoking a handler `(err, req, res)` at fixed `req`/`res`:
a synchronous throw, a plain returned value, or a returned promise that
settles (`.ok` fulfilled / `.error` rejected). -/
inductive HandlerRun where
  | throws (e : JsError)
  | retVal (v : HttpResponse)
  | retPromise (p : Except JsError HttpResponse)

/-- A registered handler, as a function of the dispatched error (the `req`
and `res` of one dispatch are fixed, so any dependence on them is absorbed
into the function). -/
abbrev Handler := JsError → HandlerRun

/-- Class of an engine/library-raised error object. -/
inductive ErrClass where
  | error
  | typeError
  deriving DecidableEq, Repr

/-- A value thrown out of one of the embedded functions: either a built-in
`Error`/`TypeError` raised by the engine or the library itself, or a
user-level error value. -/
inductive Thrown where
  | builtin (cls : ErrClass) (msg : String)
  | jsErr (e : JsError)

/-! ## `core/helpers/error-handler-registry.helper.js` -/

/-- The handler registry: `Map<constructor, handlerFunction>` in insertion
order. -/
abbrev Registry := List (ClassId × Handler)

/-- `Map.set` semantics on an association list in insertion order: an
existing key keeps its position and gets the new value, a new key is
appended. -/
def mapSet {V : Type} (m : List (ClassId × V)) (c : ClassId) (v : V) :
    List (ClassId × V) :=
  match m with
  | [] => [(c, v)]
  | (c', v') :: rest => if c' = c then (c, v) :: rest else (c', v') :: mapSet rest c v

/-- `Map.get` semantics on an association list. -/
def mapGet {V : Type} (m : List (ClassId × V)) (c : ClassId) : Option V :=
  match m with
  | [] => none
  | (c', v) :: rest => if c' = c then some v else mapGet rest c

/-- A non-function argument slot (`typeof x !== 'function'`) versus a
function argument carrying its model. -/
inductive JsFunArg (α : Type) where
  | fn (f : α)
  | notFn (v : JsVal)

/-- `registerErrorHandler(ExceptionClass, handler)`: throws
`new Error('ExceptionClass must be a constructor function')` when the first
argument is not a function, `new Error('Handler must be a function')` when
the second is not, and otherwise `errorHandlerRegistry.set(ExceptionClass,
handler)` (returned as the updated registry state). -/
def registerErrorHandler (reg : Registry) (exceptionClass : JsFunArg ClassId)
    (handler : JsFunArg Handler) : Except Thrown Registry :=
  match exceptionClass with
  | .notFn _ => .error (.builtin .error "ExceptionClass must be a constructor function")
  | .fn c =>
    match handler with
    | .notFn _ => .error (.builtin .error "Handler must be a function")
    | .fn h => .ok (mapSet reg c h)

/-- Phase 1 of `findErrorHandler`: first entry with
`err.constructor === ExceptionClass`. -/
def findExactHandler (reg : Registry) (e : JsError) : Option Handler :=
  match reg with
  | [] => none
  | (c, h) :: rest => if e.ctor = c then some h else findExactHandler rest e

/-- Phase 2 of `findErrorHandler`: first entry with
`err instanceof ExceptionClass`. -/
def findInstanceHandler (reg : Registry) (e : JsError) : Option Handler :=
  match reg with
  | [] => none
  | (c, h) :: rest => if instanceOf e c then some h else findInstanceHandler rest e

/-- `findErrorHandler(err)`: exact-match scan, then inheritance scan, else
`null`.  The argument is `none` for a `null`/`undefined` error; in that case
the first loop iteration reads `err.constructor` and the engine raises a
`TypeError` — unless the registry is empty, in which case neither loop body
runs and the function falls through to `return null`. -/
def findErrorHandler (reg : Registry) (err : Option JsError) :
    Except Thrown (Option Handler) :=
  match err with
  | some e =>
    match findExactHandler reg e with
    | some h => .ok (some h)
    | none => .ok (findInstanceHandler reg e)
  | none =>
    match reg with
    | [] => .ok none
    | _ :: _ =>
      .error (.builtin .typeError "Cannot read properties of null (reading 'constructor')")

/-- `isRetryableError(error)`: `false` when `error?.statusCode` is truthy and
in the client-error denylist `[400, 401, 403, 404, 409]`, `true` otherwise. -/
def isRetryableError (error : Option JsError) : Bool :=
  let nonRetryableStatusCodes : List Int := [400, 401, 403, 404, 409]
  match error with
  | none => true
  | some e =>
    match e.statusCode with
    | none => true
    | some n => if n ≠ 0 ∧ n ∈ nonRetryableStatusCodes then false else true

/-- Convert an optional string field into the `JsVal` actually stored when
the source writes `key: originalError?.errorCode` (absent stays
`undefined`). -/
def optStrVal : Option String → JsVal
  | some s => .str s
  | none => .undefined

/-- `createFallbackResponse(originalError, handlerError, req)`.  The
structured `console` log is a side effect no claim touches and is not
modelled; `now` is the `new Date().toISOString()` sample and `freshCid` the
`generateSafeCorrelationId()` sample.  The trailing
`...(originalError?.metadata?.domain && { domain })` spreads a key not among
the literal keys of the object, hence appends when the domain is truthy. -/
def createFallbackResponse (originalError : Option JsError)
    (handlerError : Option JsError) (now freshCid : String) : HttpResponse :=
  let fallbackStatusCode : Int := jsOrInt (originalError.bind (·.statusCode)) 500
  let fallbackMessage : String :=
    if fallbackStatusCode = 404 then "Requested resource not found"
    else if fallbackStatusCode = 400 then "Invalid request data"
    else if fallbackStatusCode = 403 then "Access denied"
    else if fallbackStatusCode = 409 then "Resource conflict occurred"
    else "Service temporarily unavailable"
  let safeMeta : JsObj :=
    [("errorCode", .str "HANDLER_EXECUTION_FAILED"),
     ("originalErrorCode", optStrVal (originalError.bind (·.errorCode))),
     ("correlationId", .str (jsOrStr (originalError.bind (·.correlationId)) freshCid)),
     ("timestamp", .str now),
     ("retryable", .bool (isRetryableError originalError))] ++
    (match (originalError.bind (·.metadata)).bind (fun md => objGet md "domain") with
     | some v => if v.truthy then [("domain", v)] else []
     | none => [])
  HttpResponse.error (some fallbackMessage) (some fallbackStatusCode) .null safeMeta now

/-- `createSafeHandler(handler, { handlerName })`: run the handler inside
`try`/`catch`; a synchronous throw becomes a plain fallback response, a
returned promise gets a `.catch` continuation resolving to the fallback, and
anything else passes through unchanged.  The `handlerName` option feeds only
the `console.error` log and is not modelled. -/
def createSafeHandler (handler : Handler) (now freshCid : String) : Handler :=
  fun err =>
    match handler err with
    | .throws handlerError =>
      .retVal (createFallbackResponse (some err) (some handlerError) now freshCid)
    | .retVal v => .retVal v
    | .retPromise (.ok v) => .retPromise (.ok v)
    | .retPromise (.error handlerError) =>
      .retPromise (.ok (createFallbackResponse (some err) (some handlerError) now freshCid))

/-- `handleWithRegistry(err, req, res, { useSafeWrapper = true })`: look up a
handler (which may itself throw on a `null`/`undefined` error), return
`null` when none is found, and otherwise run the handler through the safe
wrapper — or directly, in which case a synchronous handler throw propagates
to the caller. -/
def handleWithRegistry (reg : Registry) (err : Option JsError)
    (useSafeWrapper : Bool) (now freshCid : String) :
    Except Thrown (Option HandlerRun) :=
  match findErrorHandler reg err with
  | .error t => .error t
  | .ok none => .ok none
  | .ok (some handler) =>
    match err with
    | none => .ok none -- unreachable: a handler is only ever found for a non-null error
    | some e =>
      if useSafeWrapper then .ok (some (createSafeHandler handler now freshCid e))
      else
        match handler e with
        | .throws t => .error (.jsErr t)
        | r => .ok (some r)

/-! ## Heap model for `getRegisteredHandlers`

`getRegisteredHandlers` returns `new Map(errorHandlerRegistry)` — a freshly
allocated `Map` holding a copy of the entries.  To state that mutating the
returned map cannot touch the live registry, `Map` objects live in a small
heap of cells addressed by references; the module-level
`errorHandlerRegistry` occupies cell `registryRef`. -/

/-- A heap of `Map` objects (association lists), addressed by index. -/
structure MapHeap (V : Type) where
  cells : List (List (ClassId × V))

/-- Dereference a `Map` object. -/
def MapHeap.get {V : Type} (h : MapHeap V) (r : Nat) : List (ClassId × V) :=
  h.cells.getD r []

/-- Overwrite the contents of a `Map` object. -/
def MapHeap.setCell {V : Type} (h : MapHeap V) (r : Nat)
    (m : List (ClassId × V)) : MapHeap V :=
  ⟨h.cells.set r m⟩

/-- The reference of the module-level `errorHandlerRegistry`. -/
def registryRef : Nat := 0

/-- `getRegisteredHandlers()`: `new Map(errorHandlerRegistry)` — allocate a
fresh cell holding a copy of the registry's entries and return its
reference together with the new heap. -/
def getRegisteredHandlers {V : Type} (h : MapHeap V) : Nat × MapHeap V :=
  (h.cells.length, ⟨h.cells ++ [h.get registryRef]⟩)

/-- A mutation a caller can apply to a `Map` it holds: `set`, `delete`, or
`clear`. -/
inductive MapMut (V : Type) where
  | set (k : ClassId) (v : V)
  | del (k : ClassId)
  | clear

/-- Apply one mutation to a `Map`'s contents. -/
def applyMut {V : Type} (m : List (ClassId × V)) : MapMut V → List (ClassId × V)
  | .set k v => mapSet m k v
  | .del k => m.filter (fun kv => kv.1 ≠ k)
  | .clear => []

/-- Apply a sequence of mutations through a reference. -/
def applyMuts {V : Type} (h : MapHeap V) (r : Nat) (ms : List (MapMut V)) : MapHeap V :=
  ms.foldl (fun h' mu => h'.setCell r (applyMut (h'.get r) mu)) h

/-! ## `core/middlewares/error-handler.middleware.js` -/

/-- The meta bag built for a `BaseException` both by the middleware's
known-failure branch and by `defaultBaseExceptionHandler`:
`{ ...(err.metadata ?? err.meta ?? {}), ...(errorCode), ...(isOperational),
...(correlationId) }` with each trailing spread guarded by
`!== undefined`. -/
def buildBaseExceptionMeta (e : JsError) : JsObj :=
  let m0 := ((e.metadata).orElse (fun _ => e.meta)).getD []
  let m1 := match e.errorCode with
    | some c => objSet m0 "errorCode" (.str c)
    | none => m0
  let m2 := match e.isOperational with
    | some b => objSet m1 "isOperational" (.bool b)
    | none => m1
  match e.correlationId with
  | some c => objSet m2 "correlationId" (.str c)
  | none => m2

/-- The error argument reaching the terminal middleware: a pre-built
`HttpResponse`, an ordinary error object, or `null`/`undefined`. -/
inductive MwErr where
  | httpResponse (r : HttpResponse)
  | jsError (e : JsError)
  | nullErr

/-- Observable outcome of one `globalErrorHandler` invocation: the error was
forwarded with `next(err)`, a response was sent (`res.status(s).send(body)`),
or the middleware itself threw. -/
inductive MwOutcome where
  | calledNext (e : MwErr)
  | sent (status : Int) (body : ResBody)
  | threw (t : Thrown)

/-- Environment of one invocation: the production flag
(`process.env.NODE_ENV === 'production'`) and the timestamp / correlation-id
samples. -/
structure MwEnv where
  production : Bool
  now : String
  freshCid : String

/-- `globalErrorHandler(err, req, res, next)`:
1. `res.headersSent` → `next(err)`;
2. `err instanceof HttpResponse` → `err.send(res)`;
3. `handleWithRegistry(err, req, res)` (safe wrapper on by default) — a
   truthy result is sent with `.send(res)` (a returned promise has no `send`
   method, so the engine raises a `TypeError` there);
4. `err instanceof BaseException` → `HttpResponse.error(err.message,
   err.statusCode ?? 400, err.data, meta).send(res)`;
5. otherwise status 500 with the production-gated message
   (`err.message` is only read on the non-production side of the ternary,
   and `undefined.message` raises a `TypeError`). -/
def globalErrorHandler (opts : HttpOptions) (env : MwEnv) (reg : Registry)
    (err : MwErr) (headersSent : Bool) : MwOutcome :=
  if headersSent then .calledNext err
  else
    match err with
    | .httpResponse r =>
      let (s, b) := r.sendParts opts
      .sent s b
    | _ =>
      let errOpt : Option JsError := match err with
        | .jsError e => some e
        | _ => none
      match handleWithRegistry reg errOpt true env.now env.freshCid with
      | .error t => .threw t
      | .ok (some run) =>
        match run with
        | .retVal v =>
          let (s, b) := v.sendParts opts
          .sent s b
        | _ => .threw (.builtin .typeError "customResponse.send is not a function")
      | .ok none =>
        match err with
        | .jsError e =>
          if isBaseException e then
            let resp := HttpResponse.error e.message (some (e.statusCode.getD 400))
              e.data (buildBaseExceptionMeta e) env.now
            let (s, b) := resp.sendParts opts
            .sent s b
          else
            let message :=
              if env.production then "Internal Server Error"
              else jsOrStr e.message "Internal Server Error"
            let resp := HttpResponse.error (some message) (some 500) .null [] env.now
            let (s, b) := resp.sendParts opts
            .sent s b
        | _ =>
          if env.production then
            let resp := HttpResponse.error (some "Internal Server Error") (some 500)
              .null [] env.now
            let (s, b) := resp.sendParts opts
            .sent s b
          else
            .threw (.builtin .typeError "Cannot read properties of null (reading 'message')")

/-! ## Helper lemmas on object bags -/

theorem objGet_objSet_self (m : JsObj) (k : String) (v : JsVal) :
    objGet (objSet m k v) k = some v := by
  induction m with
  | nil => simp [objSet, objGet]
  | cons kv rest ih =>
    obtain ⟨k', v'⟩ := kv
    by_cases h : k' = k
    · subst h; simp [objSet, objGet]
    · simp [objSet, objGet, h, ih]

theorem objGet_objSet_ne (m : JsObj) (k k' : String) (v : JsVal) (h : k' ≠ k) :
    objGet (objSet m k' v) k = objGet m k := by
  induction m with
  | nil => simp [objSet, objGet, h]
  | cons kv rest ih =>
    obtain ⟨k0, v0⟩ := kv
    by_cases h0 : k0 = k'
    · subst h0; simp [objSet, objGet, h]
    · by_cases h1 : k0 = k
      · subst h1; simp [objSet, objGet, h0]
      · simp [objSet, objGet, h0, h1, ih]

/-! ## Helper lemmas on the fallback response builder -/

theorem fallback_statusCode (orig he : Option JsError) (now cid : String) :
    (createFallbackResponse orig he now cid).statusCode =
      jsOrInt (orig.bind (·.statusCode)) 500 := by
  simp [createFallbackResponse, HttpResponse.error, HttpResponse.make]

theorem fallback_data (orig he : Option JsError) (now cid : String) :
    (createFallbackResponse orig he now cid).data = .null := by
  simp [createFallbackResponse, HttpResponse.error, HttpResponse.make]

theorem fallback_message (orig he : Option JsError) (now cid : String) :
    (createFallbackResponse orig he now cid).message =
      (let s := jsOrInt (orig.bind (·.statusCode)) 500
       if s = 404 then "Requested resource not found"
       else if s = 400 then "Invalid request data"
       else if s = 403 then "Access denied"
       else if s = 409 then "Resource conflict occurred"
       else "Service temporarily unavailable") := by
  simp [createFallbackResponse, HttpResponse.error, HttpResponse.make]

theorem fallback_meta_errorCode (orig he : Option JsError) (now cid : String) :
    objGet (createFallbackResponse orig he now cid).meta "errorCode" =
      some (.str "HANDLER_EXECUTION_FAILED") := by
  rcases orig with _ | e
  · simp [createFallbackResponse, HttpResponse.error, HttpResponse.make,
      objSpread, objSet, objGet]
  · cases hdom : (e.metadata.bind (fun md => objGet md "domain")) with
    | none =>
      simp [createFallbackResponse, HttpResponse.error, HttpResponse.make,
        objSpread, objSet, objGet, hdom]
    | some v =>
      cases hv : v.truthy <;>
      simp [createFallbackResponse, HttpResponse.error, HttpResponse.make,
        objSpread, objSet, objGet, hdom, hv]

theorem fallback_meta_retryable (orig he : Option JsError) (now cid : String) :
    objGet (createFallbackResponse orig he now cid).meta "retryable" =
      some (.bool (isRetryableError orig)) := by
  rcases orig with _ | e
  · simp [createFallbackResponse, HttpResponse.error, HttpResponse.make,
      objSpread, objSet, objGet]
  · cases hdom : (e.metadata.bind (fun md => objGet md "domain")) with
    | none =>
      simp [createFallbackResponse, HttpResponse.error, HttpResponse.make,
        objSpread, objSet, objGet, hdom]
    | some v =>
      cases hv : v.truthy <;>
      simp [createFallbackResponse, HttpResponse.error, HttpResponse.make,
        objSpread, objSet, objGet, hdom, hv]

/-! ## Claim C1 -/

/-- C1: for every handler that throws synchronously or returns a rejecting
promise, dispatching through `handleWithRegistry` with the safe wrapper
enabled never propagates the handler's failure: the call returns (possibly
through a fulfilled promise) a Respondable whose `statusCode` is the
original error's `statusCode` (500 when absent or falsy) and whose
`meta.errorCode` is `"HANDLER_EXECUTION_FAILED"`. -/
theorem safe_dispatch_never_propagates (reg : Registry) (e : JsError)
    (handler : Handler) (he : JsError) (now cid : String)
    (hfind : findErrorHandler reg (some e) = .ok (some handler))
    (hfail : handler e = .throws he ∨ handler e = .retPromise (.error he)) :
    ∃ resp : HttpResponse,
      (handleWithRegistry reg (some e) true now cid = .ok (some (.retVal resp)) ∨
       handleWithRegistry reg (some e) true now cid = .ok (some (.retPromise (.ok resp)))) ∧
      resp.statusCode = jsOrInt e.statusCode 500 ∧
      objGet resp.meta "errorCode" = some (.str "HANDLER_EXECUTION_FAILED") := by
  refine ⟨createFallbackResponse (some e) (some he) now cid, ?_, ?_, ?_⟩
  · rcases hfail with h | h
    · left; simp [handleWithRegistry, hfind, createSafeHandler, h]
    · right; simp [handleWithRegistry, hfind, createSafeHandler, h]
  · simpa using fallback_statusCode (some e) (some he) now cid
  · exact fallback_meta_errorCode _ _ _ _

/-- A handler that always throws synchronously. -/
def wThrowingHandler : Handler :=
  fun _ => .throws { ctor := 9, ancestors := [9], message := some "handler blew up" }

/-- The error thrown by `wThrowingHandler`. -/
def wHandlerError : JsError := { ctor := 9, ancestors := [9], message := some "handler blew up" }

/-- A `BaseException` subclass instance with status 404 (class tag 1). -/
def wNotFoundErr : JsError := { ctor := 1, ancestors := [1, baseExceptionClass], statusCode := some 404 }

/-- A registry holding the throwing handler for class tag 1. -/
def wThrowReg : Registry := [(1, wThrowingHandler)]

theorem safe_dispatch_never_propagates_witness :
    ∃ resp : HttpResponse,
      (handleWithRegistry wThrowReg (some wNotFoundErr) true "t0" "c0" = .ok (some (.retVal resp)) ∨
       handleWithRegistry wThrowReg (some wNotFoundErr) true "t0" "c0" = .ok (some (.retPromise (.ok resp)))) ∧
      resp.statusCode = jsOrInt wNotFoundErr.statusCode 500 ∧
      objGet resp.meta "errorCode" = some (.str "HANDLER_EXECUTION_FAILED") :=
  safe_dispatch_never_propagates wThrowReg wNotFoundErr wThrowingHandler wHandlerError
    "t0" "c0" rfl (Or.inl rfl)

/-! ## Claim C3 -/

/-- C3: the fallback builder is total under mutated/absent error fields —
every field of the original error (including `metadata`, nulled out after
construction) is an `Option` and the builder is a total function over all of
them.  Its result takes its status from the error's own `statusCode` (500
when absent), computes the `retryable` flag by the retry-classification
function, and its client-visible message neither depends on the original
error's `message`/`stack`/`name` nor ranges outside five fixed safe
strings. -/
theorem fallback_total_and_non_leaking (orig he : Option JsError) (now cid : String) :
    (createFallbackResponse orig he now cid).statusCode =
      jsOrInt (orig.bind (·.statusCode)) 500 ∧
    objGet (createFallbackResponse orig he now cid).meta "retryable" =
      some (.bool (isRetryableError orig)) ∧
    (createFallbackResponse orig he now cid).message =
      (createFallbackResponse
        (orig.map (fun e => { e with message := none, stack := none, name := none }))
        he now cid).message ∧
    (createFallbackResponse orig he now cid).message ∈
      ["Requested resource not found", "Invalid request data", "Access denied",
       "Resource conflict occurred", "Service temporarily unavailable"] := by
  refine ⟨fallback_statusCode orig he now cid, fallback_meta_retryable orig he now cid, ?_, ?_⟩
  · rw [fallback_message, fallback_message]
    rcases orig with _ | e <;> rfl
  · rw [fallback_message]
    set s := jsOrInt (orig.bind (·.statusCode)) 500
    by_cases h404 : s = 404 <;> by_cases h400 : s = 400 <;> by_cases h403 : s = 403 <;>
      by_cases h409 : s = 409 <;> simp [h404, h400, h403, h409]

/-! ## Claim C4 -/

/-- C4: retry classification is the closed denylist `{400, 401, 403, 404,
409}` — those statuses are never retryable, and every other `statusCode`
(all 5xx, unknown codes such as 999, and an absent field) is retryable. -/
theorem retry_classification_closed_denylist (e : JsError) (n : Int) :
    (e.statusCode = some n → n ∈ ([400, 401, 403, 404, 409] : List Int) →
      isRetryableError (some e) = false) ∧
    (e.statusCode = some n → n ∉ ([400, 401, 403, 404, 409] : List Int) →
      isRetryableError (some e) = true) ∧
    (e.statusCode = none → isRetryableError (some e) = true) ∧
    isRetryableError none = true := by
  refine ⟨?_, ?_, ?_, rfl⟩
  · intro hsc hmem
    have hnz : n ≠ 0 := by
      have hmem' := hmem
      simp only [List.mem_cons, List.not_mem_nil, or_false] at hmem'
      rcases hmem' with h | h | h | h | h <;> subst h <;> decide
    simp [isRetryableError, hsc, hnz, hmem]
  · intro hsc hmem
    simp [isRetryableError, hsc, hmem]
  · intro hsc
    simp [isRetryableError, hsc]

/-- A client error with status 404. -/
def w404Err : JsError := { ctor := 1, ancestors := [1, baseExceptionClass], statusCode := some 404 }

/-- An error with the out-of-table status 999. -/
def w999Err : JsError := { ctor := 2, ancestors := [2], statusCode := some 999 }

/-- An error with no `statusCode` field. -/
def wNoStatusErr : JsError := { ctor := 2, ancestors := [2] }

theorem retry_classification_closed_denylist_witness :
    isRetryableError (some w404Err) = false ∧
    isRetryableError (some w999Err) = true ∧
    isRetryableError (some wNoStatusErr) = true :=
  ⟨(retry_classification_closed_denylist w404Err 404).1 rfl (by decide),
   (retry_classification_closed_denylist w999Err 999).2.1 rfl (by decide),
   (retry_classification_closed_denylist wNoStatusErr 0).2.2.1 rfl⟩

/-! ## Claim C5 -/

/-- C5: the fallback message is a pure function of the resolved status-code
bucket (404, 400, 403, 409, anything else), and the fallback data payload is
always `null`, for every original error and every handler error. -/
theorem fallback_message_bucket_and_null_data (orig he : Option JsError) (now cid : String) :
    (createFallbackResponse orig he now cid).message =
      (let s := jsOrInt (orig.bind (·.statusCode)) 500
       if s = 404 then "Requested resource not found"
       else if s = 400 then "Invalid request data"
       else if s = 403 then "Access denied"
       else if s = 409 then "Resource conflict occurred"
       else "Service temporarily unavailable") ∧
    (createFallbackResponse orig he now cid).data = .null :=
  ⟨fallback_message orig he now cid, fallback_data orig he now cid⟩

/-! ## Registry lookup lemmas -/

theorem findExactHandler_of_mem (reg : Registry) (c : ClassId) (h : Handler)
    (e : JsError) (hnd : (reg.map Prod.fst).Nodup) (hmem : (c, h) ∈ reg)
    (hc : e.ctor = c) : findExactHandler reg e = some h := by
  induction reg with
  | nil => cases hmem
  | cons p rest ih =>
    obtain ⟨c', h'⟩ := p
    have hnd' : c' ∉ rest.map Prod.fst ∧ (rest.map Prod.fst).Nodup := by
      rw [List.map_cons, List.nodup_cons] at hnd; exact hnd
    rcases List.mem_cons.mp hmem with heq | htl
    · obtain ⟨rfl, rfl⟩ := Prod.mk.injEq .. ▸ heq
      simp [findExactHandler, hc]
    · have hne : e.ctor ≠ c' := by
        have hkeys : c ∈ rest.map Prod.fst := List.mem_map_of_mem Prod.fst htl
        intro hcontra
        exact hnd'.1 ((hc.symm.trans hcontra) ▸ hkeys)
      simp only [findExactHandler, if_neg hne]
      exact ih hnd'.2 htl

theorem findExactHandler_eq_none (reg : Registry) (e : JsError)
    (h : ∀ p ∈ reg, p.1 ≠ e.ctor) : findExactHandler reg e = none := by
  induction reg with
  | nil => rfl
  | cons p rest ih =>
    obtain ⟨c', h'⟩ := p
    have hne : e.ctor ≠ c' := fun hcontra => h (c', h') (List.mem_cons_self _ _) hcontra.symm
    simp only [findExactHandler, if_neg hne]
    exact ih (fun q hq => h q (List.mem_cons_of_mem _ hq))

theorem findInstanceHandler_eq_none (reg : Registry) (e : JsError)
    (h : ∀ p ∈ reg, ¬ instanceOf e p.1) : findInstanceHandler reg e = none := by
  induction reg with
  | nil => rfl
  | cons p rest ih =>
    obtain ⟨c', h'⟩ := p
    have hne : instanceOf e c' = false :=
      Bool.eq_false_iff.mpr (h (c', h') (List.mem_cons_self _ _))
    simp only [findInstanceHandler, hne, Bool.false_eq_true, if_false]
    exact ih (fun q hq => h q (List.mem_cons_of_mem _ hq))

theorem findInstanceHandler_unique (reg : Registry) (c : ClassId) (hp : Handler)
    (e : JsError) (hmem : (c, hp) ∈ reg) (hinst : instanceOf e c)
    (huniq : ∀ p ∈ reg, instanceOf e p.1 → p = (c, hp)) :
    findInstanceHandler reg e = some hp := by
  induction reg with
  | nil => cases hmem
  | cons p rest ih =>
    obtain ⟨c', h'⟩ := p
    by_cases hi : instanceOf e c'
    · have := huniq (c', h') (List.mem_cons_self _ _) hi
      obtain ⟨rfl, rfl⟩ := Prod.mk.injEq .. ▸ this
      simp [findInstanceHandler, hi]
    · have hne : instanceOf e c' = false := Bool.eq_false_iff.mpr hi
      simp only [findInstanceHandler, hne, Bool.false_eq_true, if_false]
      have htl : (c, hp) ∈ rest := by
        rcases List.mem_cons.mp hmem with heq | htl
        · obtain ⟨rfl, rfl⟩ := Prod.mk.injEq .. ▸ heq
          exact absurd hinst hi
        · exact htl
      exact ih htl (fun q hq hiq => huniq q (List.mem_cons_of_mem _ hq) hiq)

/-! ## Claim C2 -/

/-- C2: handler lookup is two-phase with exact-match precedence — when both
a child variant and its ancestor variant are registered, `findErrorHandler`
on a child instance yields the child's handler and on an ancestor instance
the ancestor's handler; when only the ancestor is registered, a child
instance falls back to the ancestor's handler; and when no registered
variant matches, the no-handler signal `null` is returned (nothing is
raised). -/
theorem lookup_two_phase_exact_precedence :
    (∀ (reg : Registry) (childC parentC : ClassId) (hc hp : Handler) (e e' : JsError),
        (reg.map Prod.fst).Nodup → (childC, hc) ∈ reg → (parentC, hp) ∈ reg →
        e.ctor = childC → parentC ∈ e.ancestors → e'.ctor = parentC →
        findErrorHandler reg (some e) = .ok (some hc) ∧
        findErrorHandler reg (some e') = .ok (some hp)) ∧
    (∀ (reg : Registry) (parentC : ClassId) (hp : Handler) (e : JsError),
        (parentC, hp) ∈ reg → instanceOf e parentC →
        (∀ p ∈ reg, p.1 ≠ e.ctor) →
        (∀ p ∈ reg, instanceOf e p.1 → p = (parentC, hp)) →
        findErrorHandler reg (some e) = .ok (some hp)) ∧
    (∀ (reg : Registry) (e : JsError),
        (∀ p ∈ reg, p.1 ≠ e.ctor) → (∀ p ∈ reg, ¬ instanceOf e p.1) →
        findErrorHandler reg (some e) = .ok none) := by
  refine ⟨?_, ?_, ?_⟩
  · intro reg childC parentC hc hp e e' hnd hmc hmp hce _ hce'
    constructor
    · simp [findErrorHandler, findExactHandler_of_mem reg childC hc e hnd hmc hce]
    · simp [findErrorHandler, findExactHandler_of_mem reg parentC hp e' hnd hmp hce']
  · intro reg parentC hp e hmem hinst hnoexact huniq
    simp [findErrorHandler, findExactHandler_eq_none reg e hnoexact,
      findInstanceHandler_unique reg parentC hp e hmem hinst huniq]
  · intro reg e hnoexact hnoinst
    simp [findErrorHandler, findExactHandler_eq_none reg e hnoexact,
      findInstanceHandler_eq_none reg e hnoinst]

/-- The handler registered for the parent class (tag 3). -/
def wParentHandler : Handler :=
  fun _ => .retVal (HttpResponse.error (some "parent handled") (some 400) .null [] "t0")

/-- The handler registered for the child class (tag 5). -/
def wChildHandler : Handler :=
  fun _ => .retVal (HttpResponse.error (some "child handled") (some 409) .null [] "t0")

/-- A child-class instance (chain child 5 → parent 3 → BaseException 0). -/
def wChildErr : JsError := { ctor := 5, ancestors := [5, 3, baseExceptionClass] }

/-- A parent-class instance (chain parent 3 → BaseException 0). -/
def wParentErr : JsError := { ctor := 3, ancestors := [3, baseExceptionClass] }

/-- An unrelated error matching no registered variant. -/
def wUnrelatedErr : JsError := { ctor := 7, ancestors := [7] }

/-- Registry with the parent registered before the child. -/
def wBothReg : Registry := [(3, wParentHandler), (5, wChildHandler)]

/-- Registry with only the parent registered. -/
def wParentOnlyReg : Registry := [(3, wParentHandler)]

theorem lookup_two_phase_exact_precedence_witness :
    (findErrorHandler wBothReg (some wChildErr) = .ok (some wChildHandler) ∧
     findErrorHandler wBothReg (some wParentErr) = .ok (some wParentHandler)) ∧
    findErrorHandler wParentOnlyReg (some wChildErr) = .ok (some wParentHandler) ∧
    findErrorHandler wParentOnlyReg (some wUnrelatedErr) = .ok none :=
  ⟨lookup_two_phase_exact_precedence.1 wBothReg 5 3 wChildHandler wParentHandler
      wChildErr wParentErr (by decide)
      (List.Mem.tail _ (List.Mem.head _)) (List.Mem.head _) rfl (by decide) rfl,
   lookup_two_phase_exact_precedence.2.1 wParentOnlyReg 3 wParentHandler wChildErr
      (List.Mem.head _) (by decide)
      (by intro p hp; simp only [wParentOnlyReg, List.mem_singleton] at hp; subst hp; decide)
      (by intro p hp _; simpa only [wParentOnlyReg, List.mem_singleton] using hp),
   lookup_two_phase_exact_precedence.2.2 wParentOnlyReg wUnrelatedErr
      (by intro p hp; simp only [wParentOnlyReg, List.mem_singleton] at hp; subst hp; decide)
      (by intro p hp; simp only [wParentOnlyReg, List.mem_singleton] at hp; subst hp; decide)⟩

/-! ## Claim C6 -/

/-- C6: when `res.headersSent` is `true`, the terminal middleware forwards
the error unchanged via `next(error)` for every error value — the outcome is
`calledNext err`, so no `status`/`send`/`json` call is made (those appear
only in the `sent` outcome). -/
theorem headers_sent_forwards_unchanged (opts : HttpOptions) (env : MwEnv)
    (reg : Registry) (err : MwErr) :
    globalErrorHandler opts env reg err true = .calledNext err := by
  simp [globalErrorHandler]

/-! ## Claim C7 -/

/-- An unrecognized error (no `BaseException` in its chain) whose `message`
is the empty string. -/
def c7EmptyMsgErr : JsError := { ctor := 7, ancestors := [7], message := some "" }

/-- A non-production middleware environment. -/
def c7NonProdEnv : MwEnv := { production := false, now := "t0", freshCid := "c0" }

/-- C7 counterexample: the claim says that in a non-production environment
the response message equals the error's own message text for every
unrecognized, unhandled error.  For an error whose `message` is the empty
string (falsy), `err.message || 'Internal Server Error'` yields
`"Internal Server Error"` instead, so the response message differs from the
error's own message. -/
theorem unknown_error_message_counterexample :
    c7EmptyMsgErr.message = some "" ∧
    c7NonProdEnv.production = false ∧
    globalErrorHandler defaultHttpOptions c7NonProdEnv [] (.jsError c7EmptyMsgErr) false =
      .sent 500 { success := false, message := "Internal Server Error",
                  statusCode := some 500, meta := some [("timestamp", .str "t0")] } ∧
    ("Internal Server Error" : String) ≠ "" := by
  refine ⟨rfl, rfl, rfl, by decide⟩

/-- C7 amended: for every error that is neither a pre-built `HttpResponse`
nor a recognized `BaseException` variant and has no registered handler, the
terminal middleware (with the status-forcing config flag off, its default)
responds with status 500; the response message equals the error's own
message when the environment is not production **and that message is truthy
(non-empty)**, and equals `"Internal Server Error"` otherwise (production,
or an absent/empty message). -/
theorem unknown_error_env_gated_message (opts : HttpOptions) (env : MwEnv)
    (reg : Registry) (e : JsError)
    (hsd : opts.SET_DEFAULT_HTTP_STATUS_CODE = false)
    (hbe : isBaseException e = false)
    (hfind : findErrorHandler reg (some e) = .ok none) :
    ∃ b : ResBody,
      globalErrorHandler opts env reg (.jsError e) false = .sent 500 b ∧
      b.message = (if env.production then "Internal Server Error"
                   else jsOrStr e.message "Internal Server Error") ∧
      b.success = false ∧ b.error = none := by
  refine ⟨{ success := false,
            message := if env.production then "Internal Server Error"
                       else jsOrStr e.message "Internal Server Error",
            statusCode := if opts.USE_STATUS_CODE_IN_RESPONSE then some 500 else none,
            data := none, error := none,
            meta := some [("timestamp", .str env.now)] }, ?_, rfl, rfl, rfl⟩
  simp [globalErrorHandler, handleWithRegistry, hfind, hbe, hsd,
    HttpResponse.error, HttpResponse.make, HttpResponse.sendParts, objSpread]

/-- An unrecognized error with a non-empty message, as in Scenario B. -/
def wBoomErr : JsError := { ctor := 7, ancestors := [7], message := some "boom" }

theorem unknown_error_env_gated_message_witness :
    ∃ b : ResBody,
      globalErrorHandler defaultHttpOptions c7NonProdEnv [] (.jsError wBoomErr) false =
        .sent 500 b ∧
      b.message = (if c7NonProdEnv.production then "Internal Server Error"
                   else jsOrStr wBoomErr.message "Internal Server Error") ∧
      b.success = false ∧ b.error = none :=
  unknown_error_env_gated_message defaultHttpOptions c7NonProdEnv [] wBoomErr
    rfl rfl rfl

/-! ## `Map.set` lemmas -/

theorem mapGet_mapSet_self {V : Type} (m : List (ClassId × V)) (c : ClassId) (v : V) :
    mapGet (mapSet m c v) c = some v := by
  induction m with
  | nil => simp [mapSet, mapGet]
  | cons p rest ih =>
    obtain ⟨c', v'⟩ := p
    by_cases h : c' = c
    · subst h; simp [mapSet, mapGet]
    · simp [mapSet, mapGet, h, ih]

theorem mapGet_mapSet_ne {V : Type} (m : List (ClassId × V)) (c c' : ClassId) (v : V)
    (h : c' ≠ c) : mapGet (mapSet m c v) c' = mapGet m c' := by
  induction m with
  | nil => simp [mapSet, mapGet, Ne.symm h]
  | cons p rest ih =>
    obtain ⟨c0, v0⟩ := p
    by_cases h0 : c0 = c
    · subst h0; simp [mapSet, mapGet, Ne.symm h]
    · by_cases h1 : c0 = c'
      · subst h1; simp [mapSet, mapGet, h0]
      · simp [mapSet, mapGet, h0, h1, ih]

theorem mapSet_keys {V : Type} (m : List (ClassId × V)) (c : ClassId) (v : V) :
    (mapSet m c v).map Prod.fst =
      (if c ∈ m.map Prod.fst then m.map Prod.fst else m.map Prod.fst ++ [c]) := by
  induction m with
  | nil => simp [mapSet]
  | cons p rest ih =>
    obtain ⟨c', v'⟩ := p
    by_cases h : c' = c
    · subst h; simp [mapSet]
    · by_cases hm : c ∈ rest.map Prod.fst <;>
        simp [mapSet, h, Ne.symm h, ih, hm]

theorem mapSet_keys_nodup {V : Type} (m : List (ClassId × V)) (c : ClassId) (v : V)
    (hnd : (m.map Prod.fst).Nodup) : ((mapSet m c v).map Prod.fst).Nodup := by
  rw [mapSet_keys]
  by_cases hm : c ∈ m.map Prod.fst
  · simpa [hm] using hnd
  · simpa [hm, List.nodup_append, hm] using hnd

/-! ## Claim C8 -/

/-- A well-shaped handler used in the C8 counterexample. -/
def c8Handler : Handler :=
  fun _ => .retVal (HttpResponse.error (some "handled") (some 400) .null [] "t0")

/-- C8 counterexample: the claim says `registerErrorHandler` fails with a
`TypeError`-class error on a malformed first argument; the source throws
`new Error('ExceptionClass must be a constructor function')` — a plain
`Error`, not a `TypeError` (mirrored by the test, which matches only the
message). -/
theorem register_error_class_counterexample :
    registerErrorHandler [] (.notFn (.str "NotAClass")) (.fn c8Handler) =
      .error (.builtin .error "ExceptionClass must be a constructor function") ∧
    ErrClass.error ≠ ErrClass.typeError :=
  ⟨rfl, by decide⟩

/-- C8 amended: `registerErrorHandler` fails with a plain `Error`-class
error (message `'ExceptionClass must be a constructor function'` resp.
`'Handler must be a function'`) whenever its first argument is not a
function or its second is not callable; with well-shaped arguments it stores
the handler via `Map.set`, silently overwriting any previous handler for the
same variant, leaving other variants untouched and keeping at most one
handler per variant. -/
theorem register_validates_and_overwrites :
    (∀ (reg : Registry) (v : JsVal) (h : JsFunArg Handler),
        registerErrorHandler reg (.notFn v) h =
          .error (.builtin .error "ExceptionClass must be a constructor function")) ∧
    (∀ (reg : Registry) (c : ClassId) (v : JsVal),
        registerErrorHandler reg (.fn c) (.notFn v) =
          .error (.builtin .error "Handler must be a function")) ∧
    (∀ (reg : Registry) (c : ClassId) (h : Handler),
        (reg.map Prod.fst).Nodup →
        ∃ reg', registerErrorHandler reg (.fn c) (.fn h) = .ok reg' ∧
          mapGet reg' c = some h ∧
          ((reg'.map Prod.fst)).Nodup ∧
          ∀ c', c' ≠ c → mapGet reg' c' = mapGet reg c') := by
  refine ⟨fun _ _ _ => rfl, fun _ _ _ => rfl, ?_⟩
  intro reg c h hnd
  exact ⟨mapSet reg c h, rfl, mapGet_mapSet_self reg c h,
    mapSet_keys_nodup reg c h hnd,
    fun c' hne => mapGet_mapSet_ne reg c c' h hne⟩

/-- A previously registered handler for tag 3 that the overwrite replaces. -/
def c8OldHandler : Handler :=
  fun _ => .retVal (HttpResponse.error (some "old") (some 400) .null [] "t0")

theorem register_validates_and_overwrites_witness :
    registerErrorHandler [] (.notFn (.str "NotAClass")) (.fn c8Handler) =
      .error (.builtin .error "ExceptionClass must be a constructor function") ∧
    registerErrorHandler [(3, c8OldHandler)] (.fn 3) (.notFn (.str "NotAFunction")) =
      .error (.builtin .error "Handler must be a function") ∧
    ∃ reg', registerErrorHandler [(3, c8OldHandler)] (.fn 3) (.fn c8Handler) = .ok reg' ∧
      mapGet reg' 3 = some c8Handler ∧
      ((reg'.map Prod.fst)).Nodup ∧
      ∀ c', c' ≠ 3 → mapGet reg' c' = mapGet [(3, c8OldHandler)] c' :=
  ⟨register_validates_and_overwrites.1 [] (.str "NotAClass") (.fn c8Handler),
   register_validates_and_overwrites.2.1 [(3, c8OldHandler)] 3 (.str "NotAFunction"),
   register_validates_and_overwrites.2.2 [(3, c8OldHandler)] 3 c8Handler (by decide)⟩

/-! ## Heap lemmas for the snapshot claim -/

theorem MapHeap.get_setCell_ne {V : Type} (h : MapHeap V) (r r' : Nat)
    (m : List (ClassId × V)) (hne : r ≠ r') :
    (h.setCell r m).get r' = h.get r' := by
  unfold MapHeap.get MapHeap.setCell
  induction h.cells generalizing r r' with
  | nil => simp
  | cons x xs ih =>
    cases r with
    | zero =>
      cases r' with
      | zero => exact absurd rfl hne
      | succ j => simp [List.set]
    | succ i =>
      cases r' with
      | zero => simp [List.set]
      | succ j => simpa [List.set] using ih i j (fun hc => hne (by rw [hc]))

theorem applyMuts_get_ne {V : Type} (ms : List (MapMut V)) (h : MapHeap V)
    (r r' : Nat) (hne : r ≠ r') :
    (applyMuts h r ms).get r' = h.get r' := by
  induction ms generalizing h with
  | nil => rfl
  | cons mu rest ih =>
    show (applyMuts (h.setCell r (applyMut (h.get r) mu)) r rest).get r' = h.get r'
    rw [ih, MapHeap.get_setCell_ne _ _ _ _ hne]

/-! ## Claim C9 -/

/-- C9: `getRegisteredHandlers` is a defensive snapshot — `new
Map(errorHandlerRegistry)` allocates a fresh `Map` (its reference differs
from the registry's) holding the registry's entries, and any sequence of
`set`/`delete`/`clear` mutations applied through the snapshot reference
leaves the registry cell unchanged, so subsequent `findErrorHandler` calls
observe the same registry contents as before the mutations. -/
theorem snapshot_isolated_from_registry (h : MapHeap Handler)
    (ms : List (MapMut Handler)) (hne : h.cells ≠ []) :
    (getRegisteredHandlers h).1 ≠ registryRef ∧
    (getRegisteredHandlers h).2.get (getRegisteredHandlers h).1 = h.get registryRef ∧
    (applyMuts (getRegisteredHandlers h).2 (getRegisteredHandlers h).1 ms).get registryRef
      = h.get registryRef ∧
    (∀ err, findErrorHandler
        ((applyMuts (getRegisteredHandlers h).2 (getRegisteredHandlers h).1 ms).get registryRef) err
      = findErrorHandler (h.get registryRef) err) := by
  have hlen : 0 < h.cells.length := List.length_pos.mpr hne
  have hr : (getRegisteredHandlers h).1 ≠ registryRef := by
    simp only [getRegisteredHandlers, registryRef]
    omega
  have hcopy : (getRegisteredHandlers h).2.get (getRegisteredHandlers h).1 =
      h.get registryRef := by
    simp only [getRegisteredHandlers, MapHeap.get, List.getD_eq_getElem?_getD]
    rw [List.getElem?_append_right (Nat.le_refl _)]
    simp
  have hreg : (applyMuts (getRegisteredHandlers h).2 (getRegisteredHandlers h).1 ms).get
      registryRef = h.get registryRef := by
    rw [applyMuts_get_ne _ _ _ _ hr]
    simp only [getRegisteredHandlers, MapHeap.get, registryRef,
      List.getD_eq_getElem?_getD]
    rw [List.getElem?_append_left hlen]
  exact ⟨hr, hcopy, hreg, fun err => by rw [hreg]⟩

/-- A concrete handler stored in the C9 witness heap. -/
def c9Handler : Handler :=
  fun _ => .retVal (HttpResponse.error (some "c9") (some 400) .null [] "t0")

/-- A heap whose registry cell holds one registered handler. -/
def c9Heap : MapHeap Handler := ⟨[[(1, c9Handler)]]⟩

/-- A mutation sequence a caller might apply to the snapshot. -/
def c9Muts : List (MapMut Handler) := [.clear, .set 2 c9Handler, .del 2]

theorem snapshot_isolated_from_registry_witness :
    (getRegisteredHandlers c9Heap).1 ≠ registryRef ∧
    (getRegisteredHandlers c9Heap).2.get (getRegisteredHandlers c9Heap).1 =
      c9Heap.get registryRef ∧
    (applyMuts (getRegisteredHandlers c9Heap).2 (getRegisteredHandlers c9Heap).1 c9Muts).get
      registryRef = c9Heap.get registryRef ∧
    (∀ err, findErrorHandler
        ((applyMuts (getRegisteredHandlers c9Heap).2 (getRegisteredHandlers c9Heap).1 c9Muts).get
          registryRef) err
      = findErrorHandler (c9Heap.get registryRef) err) :=
  snapshot_isolated_from_registry c9Heap c9Muts (by simp [c9Heap])

/-! ## Claim C10 -/

/-- C10 counterexample: with an *empty* registry, neither lookup loop runs
and `findErrorHandler(null)` falls through to `return null` — it returns the
no-handler signal instead of throwing, contradicting the claim as stated
(which asserts a `TypeError` for every call with a `null`/`undefined`
error). -/
theorem null_lookup_counterexample :
    findErrorHandler ([] : Registry) none = .ok none ∧
    handleWithRegistry ([] : Registry) none true "t0" "c0" = .ok none :=
  ⟨rfl, rfl⟩

/-- C10 amended: whenever at least one handler is registered,
`findErrorHandler` (and hence `handleWithRegistry`) called with a
`null`/`undefined` error throws a `TypeError` from the unguarded
`err.constructor` read in the exact-match scan, instead of returning the
no-handler signal; with an empty registry the scan never runs and `null` is
returned.  For non-null errors the lookup never throws. -/
theorem null_lookup_throws_typeerror :
    (∀ (reg : Registry), reg ≠ [] →
        findErrorHandler reg none =
          .error (.builtin .typeError "Cannot read properties of null (reading 'constructor')")) ∧
    (∀ (reg : Registry) (now cid : String), reg ≠ [] →
        handleWithRegistry reg none true now cid =
          .error (.builtin .typeError "Cannot read properties of null (reading 'constructor')")) ∧
    (∀ (reg : Registry) (e : JsError), ∃ r, findErrorHandler reg (some e) = .ok r) := by
  refine ⟨?_, ?_, ?_⟩
  · intro reg hne
    cases reg with
    | nil => exact absurd rfl hne
    | cons p rest => rfl
  · intro reg now cid hne
    cases reg with
    | nil => exact absurd rfl hne
    | cons p rest => rfl
  · intro reg e
    cases hfe : findExactHandler reg e with
    | some h => exact ⟨some h, by simp [findErrorHandler, hfe]⟩
    | none => exact ⟨findInstanceHandler reg e, by simp [findErrorHandler, hfe]⟩

/-- A non-empty registry for the C10 witness. -/
def c10Reg : Registry := [(1, c9Handler)]

/-- An error instance for the C10 witness's non-null conjunct. -/
def c10Err : JsError := { ctor := 4, ancestors := [4] }

theorem null_lookup_throws_typeerror_witness :
    findErrorHandler c10Reg none =
      .error (.builtin .typeError "Cannot read properties of null (reading 'constructor')") ∧
    handleWithRegistry c10Reg none true "t0" "c0" =
      .error (.builtin .typeError "Cannot read properties of null (reading 'constructor')") ∧
    ∃ r, findErrorHandler c10Reg (some c10Err) = .ok r :=
  ⟨null_lookup_throws_typeerror.1 c10Reg (by simp [c10Reg]),
   null_lookup_throws_typeerror.2.1 c10Reg "t0" "c0" (by simp [c10Reg]),
   null_lookup_throws_typeerror.2.2 c10Reg c10Err⟩

end ExpressBase
